import Mathlib

/-!
Verification of the gallery write path of the worksglow backend
(`src/routes/galleryRoutes.js`, `src/middleware/auth.js`, mounted in the
server entry file).  The JavaScript handlers are shallowly embedded as pure
Lean functions over an explicit database/blob-store state; SQL transactions
are modelled by working on a draft state and discarding it on `ROLLBACK`,
while blob-store operations (which the source performs outside the
transaction) act on the blob list directly so that they survive a rollback.
Blob upload outcomes are supplied as an oracle attached to each file
(`none` models `uploadToBlob` throwing, `some url` a successful upload
returning `url`).
-/

namespace WorksGlow

/-! ### Integer parsing as performed by JavaScript and PostgreSQL -/

/-- Value of a list of decimal digit characters. -/
def digitsVal (cs : List Char) : Nat :=
  cs.foldl (fun n c => n * 10 + (c.toNat - 48)) 0

/-- The maximal leading run of digits, or `none` when there is none
(this is how JavaScript `parseInt` consumes its input). -/
def leadingDigitsVal (cs : List Char) : Option Nat :=
  let ds := cs.takeWhile Char.isDigit
  if ds.isEmpty then none else some (digitsVal ds)

/-- Whitespace trim at both ends of a character list. -/
def trimChars (cs : List Char) : List Char :=
  ((cs.dropWhile Char.isWhitespace).reverse.dropWhile Char.isWhitespace).reverse

/-- JavaScript `parseInt(s)` (decimal): trim, optional sign, maximal digit
run; `none` models `NaN`. -/
def parseIntJS (s : String) : Option Int :=
  match trimChars s.toList with
  | '-' :: rest => (leadingDigitsVal rest).map (fun n => -(n : Int))
  | '+' :: rest => (leadingDigitsVal rest).map (fun n => (n : Int))
  | cs => (leadingDigitsVal cs).map (fun n => (n : Int))

/-- A non-empty all-digit string value, `none` otherwise. -/
def allDigitsVal (cs : List Char) : Option Nat :=
  if !cs.isEmpty && cs.all Char.isDigit then some (digitsVal cs) else none

/-- PostgreSQL text-to-`integer` cast: trim, optional sign, digits only;
`none` models an `invalid input syntax` error. -/
def pgParseInt (s : String) : Option Int :=
  match trimChars s.toList with
  | '-' :: rest => (allDigitsVal rest).map (fun n => -(n : Int))
  | '+' :: rest => (allDigitsVal rest).map (fun n => (n : Int))
  | cs => (allDigitsVal cs).map (fun n => (n : Int))

/-! ### `src/middleware/auth.js` — authenticateToken -/

/-- The payload `jwt.verify` decodes on success (signed at login with
`{id, username, email}`). -/
structure DecodedUser where
  id : Nat
  username : String
  email : String
deriving Repr, DecidableEq

/-- Outcome of the middleware: an early `res.status(...)` denial, or
`next()` with `req.user` attached. -/
inductive AuthCheck where
  | denied (status : Nat) (message : String)
  | allowed (user : DecodedUser)
deriving Repr, DecidableEq

/-- HTTP status of the middleware outcome (200 stands for `next()`). -/
def AuthCheck.statusOf : AuthCheck → Nat
  | .denied s _ => s
  | .allowed _ => 200

/-- `split(' ')` on a character list: the fields between single-space
separators (empty fields included, as in JavaScript). -/
def splitSpaces (cur : List Char) : List Char → List (List Char)
  | [] => [cur.reverse]
  | c :: rest =>
    if c == ' ' then cur.reverse :: splitSpaces [] rest
    else splitSpaces (c :: cur) rest

/-- `authHeader && authHeader.split(' ')[1]` from `auth.js`: the second
space-separated word of the `Authorization` header, if any. -/
def bearerToken : Option String → Option String
  | none => none
  | some h => ((splitSpaces [] h.toList).get? 1).map String.mk

/-- `authenticateToken` from `src/middleware/auth.js`.  `verify` is the
oracle for `jwt.verify(token, JWT_SECRET)`: `some user` on a valid,
unexpired signature, `none` when it throws.  A missing (or JS-falsy, i.e.
empty) token yields 401; a present but unverifiable token yields 403. -/
def authenticateToken (verify : String → Option DecodedUser)
    (authHeader : Option String) : AuthCheck :=
  match bearerToken authHeader with
  | none => .denied 401 "Access denied. No token provided."
  | some t =>
    if t = "" then .denied 401 "Access denied. No token provided."
    else
      match verify t with
      | some u => .allowed u
      | none => .denied 403 "Invalid or expired token."

/-! ### Relational rows and system state -/

/-- A `gallery_images` row (the columns the route layer reads:
`id, project_id, image_url, image_order, is_primary`). -/
structure ImageRow where
  id : Nat
  project_id : Nat
  image_url : String
  image_order : Int
  is_primary : Bool
deriving Repr, DecidableEq

/-- A `gallery_projects` row as listed in the spec's persisted schema. -/
structure ProjectRow where
  id : Nat
  title : Option String
  subtitle : Option String
  description : Option String
  vehicle_type : Option String
  service_type : Option String
  duration : Option String
  completed_date : Option String
  display_order : Int
  is_active : Bool
  created_at : Int
  updated_at : Int
deriving Repr, DecidableEq

/-- The relational store: the two gallery tables plus their `SERIAL`
sequences. -/
structure DB where
  projects : List ProjectRow
  images : List ImageRow
  nextProjectId : Nat
  nextImageId : Nat
deriving Repr, DecidableEq

/-- Relational state plus the blob store (the set of uploaded object URLs).
Blob mutations are outside the SQL transaction. -/
structure SysState where
  db : DB
  blobs : List String
deriving Repr, DecidableEq

/-- Observable SQL/blob events of one request, used to state where the
transaction opened relative to other effects. -/
inductive Ev where
  | beginTx
  | commit
  | rollback
  | blobUpload (url : String)
  | blobDelete (url : String)
deriving Repr, DecidableEq

/-! ### Result views -/

/-- A JSON response of the gallery routes: either a 200 `res.json` carrying
`{...project, images}`, or an error envelope with its HTTP status. -/
inductive GalleryResponse where
  | success (message : Option String) (project : ProjectRow) (images : List ImageRow)
  | plain (message : String)
  | error (status : Nat) (message : String) (errMsg : Option String)
deriving Repr, DecidableEq

/-- HTTP status of a response (`res.json` without `.status` is 200). -/
def GalleryResponse.statusCode : GalleryResponse → Nat
  | .success _ _ _ => 200
  | .plain _ => 200
  | .error s _ _ => s

/-- The images array of a success payload (`[]` for errors). -/
def GalleryResponse.imagesOf : GalleryResponse → List ImageRow
  | .success _ _ imgs => imgs
  | .plain _ => []
  | .error _ _ _ => []

/-- The project of a success payload. -/
def GalleryResponse.projectOf : GalleryResponse → Option ProjectRow
  | .success _ p _ => some p
  | .plain _ => none
  | .error _ _ _ => none

/-- Full outcome of one handler invocation. -/
structure HandlerOut where
  resp : GalleryResponse
  state : SysState
  events : List Ev
deriving Repr, DecidableEq

/-! ### Reads -/

/-- `ORDER BY image_order ASC` comparator. -/
def imgLe (a b : ImageRow) : Prop := a.image_order ≤ b.image_order

instance : DecidableRel imgLe := fun a b => by
  unfold imgLe; infer_instance

/-- `ORDER BY display_order ASC, created_at DESC` comparator. -/
def projLe (a b : ProjectRow) : Prop :=
  a.display_order < b.display_order ∨
    (a.display_order = b.display_order ∧ b.created_at ≤ a.created_at)

instance : DecidableRel projLe := fun a b => by
  unfold projLe; infer_instance

/-- `SELECT id, image_url, image_order, is_primary FROM gallery_images
WHERE project_id = $1 ORDER BY image_order ASC`. -/
def selectImages (db : DB) (pid : Nat) : List ImageRow :=
  List.insertionSort imgLe (db.images.filter (fun img => img.project_id == pid))

/-- `GET /` — `SELECT * FROM gallery_projects WHERE is_active = true ORDER
BY display_order ASC, created_at DESC`, each row paired with its ordered
images. -/
def getAllGallery (db : DB) : List (ProjectRow × List ImageRow) :=
  (List.insertionSort projLe (db.projects.filter (fun p => p.is_active))).map
    (fun p => (p, selectImages db p.id))

/-- `GET /:id` — fetch one project (no `is_active` filter) or 404; the id
path parameter is cast to `integer` by PostgreSQL. -/
def getProjectById (db : DB) (idParam : String) : GalleryResponse :=
  match pgParseInt idParam with
  | none => .error 500 "Failed to fetch project" (some "invalid input syntax for type integer")
  | some n =>
    match db.projects.find? (fun p => (p.id : Int) == n) with
    | none => .error 404 "Project not found" none
    | some p => .success none p (selectImages db p.id)

/-! ### POST /create -/

/-- A multipart file accepted by multer, together with the oracle outcome
of `uploadToBlob` on it: `none` models the helper throwing, `some url` the
blob URL it returns. -/
structure UploadFile where
  originalname : String
  uploadResult : Option String
deriving Repr, DecidableEq

/-- The create request body and files.  The route applies no
authentication middleware, so the `Authorization` header is carried but
never consulted. -/
structure CreateReq where
  authHeader : Option String
  title : Option String
  subtitle : Option String
  description : Option String
  vehicle_type : Option String
  service_type : Option String
  duration : Option String
  completed_date : Option String
  display_order : Option String
  files : List UploadFile
deriving Repr, DecidableEq

/-- `const { display_order = 0 } = req.body`: the destructuring default
applies only when the field is absent; a supplied string goes through the
PostgreSQL integer cast. -/
def displayOrderValue : Option String → Option Int
  | none => some 0
  | some s => pgParseInt s

/-- `INSERT INTO gallery_projects (...) VALUES (...) RETURNING *` from the
create handler, with absent body fields inserted as NULL.

Modelled from the spec: the `gallery_projects` DDL is not under `src/`
(`src/config/schema.sql` only defines an older `gallery` table), so its
constraints follow the spec — title is the required text field (NOT NULL)
and the active flag defaults to true.  The insert therefore fails exactly
when `title` is absent or `display_order` does not cast to an integer. -/
def insertGalleryProject (db : DB) (now : Int) (req : CreateReq) :
    Except String (ProjectRow × DB) :=
  match req.title with
  | none => .error "null value in column title violates not-null constraint"
  | some t =>
    match displayOrderValue req.display_order with
    | none => .error "invalid input syntax for type integer"
    | some d =>
      let row : ProjectRow :=
        { id := db.nextProjectId, title := some t, subtitle := req.subtitle,
          description := req.description, vehicle_type := req.vehicle_type,
          service_type := req.service_type, duration := req.duration,
          completed_date := req.completed_date, display_order := d,
          is_active := true, created_at := now, updated_at := now }
      .ok (row, { db with projects := db.projects ++ [row],
                          nextProjectId := db.nextProjectId + 1 })

/-- `INSERT INTO gallery_images (project_id, image_url, image_order,
is_primary) VALUES (...)`. -/
def insertImage (db : DB) (pid : Nat) (url : String) (ord : Int)
    (primary : Bool) : DB :=
  { db with
    images := db.images ++
      [{ id := db.nextImageId, project_id := pid, image_url := url,
         image_order := ord, is_primary := primary }],
    nextImageId := db.nextImageId + 1 }

/-- The create handler's image loop: for file index `i`, upload then (when
the returned URL is truthy) insert with `image_order = i` and
`is_primary = (i === 0)`.  A throwing upload propagates (`.error`),
keeping the blobs uploaded so far — they are outside the transaction. -/
def createImagesLoop (pid : Nat) (i : Nat) (db : DB) (blobs : List String)
    (evs : List Ev) : List UploadFile →
      Except (List String × List Ev) (DB × List String × List Ev)
  | [] => .ok (db, blobs, evs)
  | f :: rest =>
    match f.uploadResult with
    | none => .error (blobs, evs)
    | some url =>
      let blobs1 := blobs ++ [url]
      let evs1 := evs ++ [Ev.blobUpload url]
      if url = "" then createImagesLoop pid (i + 1) db blobs1 evs1 rest
      else
        createImagesLoop pid (i + 1)
          (insertImage db pid url (Int.ofNat i) (i == 0)) blobs1 evs1 rest

/-- `POST /create` (no auth middleware on the route): BEGIN, insert the
project, upload/insert each file, COMMIT and re-read the ordered images;
any error rolls the transaction back and answers 500. -/
def createProject (st : SysState) (now : Int) (req : CreateReq) : HandlerOut :=
  match insertGalleryProject st.db now req with
  | .error e =>
      ⟨.error 500 "Failed to create project" (some e), st, [Ev.beginTx, Ev.rollback]⟩
  | .ok (project, db1) =>
    match createImagesLoop project.id 0 db1 st.blobs [Ev.beginTx] req.files with
    | .error (blobs, evs) =>
        ⟨.error 500 "Failed to create project" (some "Blob upload failed"),
         ⟨st.db, blobs⟩, evs ++ [Ev.rollback]⟩
    | .ok (db2, blobs, evs) =>
        ⟨.success (some "Project created successfully") project
           (selectImages db2 project.id),
         ⟨db2, blobs⟩, evs ++ [Ev.commit]⟩

/-! ### POST /update/:id -/

/-- The update request.  `deleted_images` models the already-`JSON.parse`d
array of entries of that multipart field (each entry rendered as the string
`parseInt` receives); the route applies no authentication middleware. -/
structure UpdateReq where
  authHeader : Option String
  idParam : String
  title : Option String
  subtitle : Option String
  description : Option String
  vehicle_type : Option String
  service_type : Option String
  duration : Option String
  completed_date : Option String
  display_order : Option String
  deleted_images : Option (List String)
  files : List UploadFile
deriving Repr, DecidableEq

/-- `parsed.filter(id => !isNaN(parseInt(id))).map(id => parseInt(id))` —
non-numeric entries are dropped, the rest parsed. -/
def parsedDeleteIds : Option (List String) → List Int
  | none => []
  | some entries => entries.filterMap parseIntJS

/-- One entry of the dynamic `SET` list: a body field overwrites the stored
value exactly when it is present and non-empty
(`req.body[field] !== undefined && req.body[field] !== ''`). -/
def mergeField (reqVal old : Option String) : Option String :=
  match reqVal with
  | some s => if s = "" then old else some s
  | none => old

/-- Whether a body field is present and non-empty. -/
def fieldPresent : Option String → Bool
  | some s => !(s == "")
  | none => false

/-- Whether the dynamic `updateFields` list is non-empty. -/
def hasTextUpdates (req : UpdateReq) : Bool :=
  fieldPresent req.title || fieldPresent req.subtitle ||
  fieldPresent req.description || fieldPresent req.vehicle_type ||
  fieldPresent req.service_type || fieldPresent req.duration ||
  fieldPresent req.completed_date || fieldPresent req.display_order

/-- What the update statement does to `display_order`. -/
inductive DispOrder where
  | keep
  | set (d : Int)
deriving Repr, DecidableEq

/-- The value `display_order` holds after the statement. -/
def DispOrder.applyTo (dord : DispOrder) (old : Int) : Int :=
  match dord with
  | .keep => old
  | .set d => d

/-- A present non-empty `display_order` goes through JavaScript `parseInt`;
`NaN` reaches the database as an invalid integer and fails the
statement. -/
def displayOrderUpdate (req : UpdateReq) : Except String DispOrder :=
  match req.display_order with
  | none => .ok .keep
  | some s =>
    if s = "" then .ok .keep
    else
      match parseIntJS s with
      | none => .error "invalid input syntax for type integer"
      | some d => .ok (.set d)

/-- Effect of the dynamic `UPDATE ... SET` on one matching row (all
present non-empty fields overwritten, `updated_at = CURRENT_TIMESTAMP`). -/
def applyRow (req : UpdateReq) (now : Int) (dord : DispOrder)
    (p : ProjectRow) : ProjectRow :=
  { p with
    title := mergeField req.title p.title,
    subtitle := mergeField req.subtitle p.subtitle,
    description := mergeField req.description p.description,
    vehicle_type := mergeField req.vehicle_type p.vehicle_type,
    service_type := mergeField req.service_type p.service_type,
    duration := mergeField req.duration p.duration,
    completed_date := mergeField req.completed_date p.completed_date,
    display_order := dord.applyTo p.display_order,
    updated_at := now }

/-- Metadata phase: when any field is present, run the dynamic UPDATE with
`RETURNING *` (first returned row is the response project); otherwise a
plain SELECT of the row.  Returns the response row and the new table. -/
def updateMetadata (db : DB) (now : Int) (n : Int) (req : UpdateReq) :
    Except String (Option ProjectRow × DB) :=
  if hasTextUpdates req then
    match displayOrderUpdate req with
    | .error e => .error e
    | .ok dord =>
      let projects1 := db.projects.map
        (fun p => if (p.id : Int) == n then applyRow req now dord p else p)
      .ok ((projects1.filter (fun p => (p.id : Int) == n)).head?,
           { db with projects := projects1 })
  else
    .ok ((db.projects.filter (fun p => (p.id : Int) == n)).head?, db)

/-- Image-deletion phase: select the victims' URLs (row ids scoped to the
owning project), delete those rows, then fire best-effort blob deletes. -/
def deleteImagesPhase (db : DB) (blobs : List String) (evs : List Ev)
    (ids : List Int) (n : Int) : DB × List String × List Ev :=
  if ids.isEmpty then (db, blobs, evs)
  else
    let victims := db.images.filter
      (fun img => ids.contains (img.id : Int) && (img.project_id : Int) == n)
    if victims.isEmpty then (db, blobs, evs)
    else
      let urls := victims.map (fun img => img.image_url)
      let survivors := db.images.filter
        (fun img => !(ids.contains (img.id : Int) && (img.project_id : Int) == n))
      ({ db with images := survivors },
       blobs.filter (fun u => !urls.contains u),
       evs ++ urls.map Ev.blobDelete)

/-- `SELECT COALESCE(MAX(image_order), -1) FROM gallery_images WHERE
project_id = $1`. -/
def maxOrderOf (db : DB) (n : Int) : Int :=
  match (db.images.filter (fun img => (img.project_id : Int) == n)).map
      (fun img => img.image_order) with
  | [] => -1
  | o :: os => os.foldl max o

/-- The update handler's new-image loop: a throwing upload is caught and
that file skipped; a truthy URL is inserted with the next order and
`is_primary = false` (`nextOrder++` happens only on insert). -/
def updateImagesLoop (pid : Nat) (db : DB) (blobs : List String)
    (evs : List Ev) (ord : Int) : List UploadFile → DB × List String × List Ev
  | [] => (db, blobs, evs)
  | f :: rest =>
    match f.uploadResult with
    | none => updateImagesLoop pid db blobs evs ord rest
    | some url =>
      let blobs1 := blobs ++ [url]
      let evs1 := evs ++ [Ev.blobUpload url]
      if url = "" then updateImagesLoop pid db blobs1 evs1 ord rest
      else updateImagesLoop pid (insertImage db pid url ord false) blobs1 evs1 (ord + 1) rest

/-- `POST /update/:id` (no auth middleware on the route): BEGIN; parse and
check the id (a generic `Error` is thrown — and answered as 500 — when the
id is invalid or no row matches); sparse metadata update; scoped image
deletion; append new images starting at `max(image_order) + 1`; COMMIT and
re-read the ordered images. -/
def updateProject (st : SysState) (now : Int) (req : UpdateReq) : HandlerOut :=
  let evs0 := [Ev.beginTx]
  match parseIntJS req.idParam with
  | none =>
      ⟨.error 500 "Failed to update project" (some "Invalid project ID"),
       st, evs0 ++ [Ev.rollback]⟩
  | some n =>
    if (st.db.projects.filter (fun p => (p.id : Int) == n)).isEmpty then
      ⟨.error 500 "Failed to update project"
         (some ("Project " ++ toString n ++ " not found")),
       st, evs0 ++ [Ev.rollback]⟩
    else
      match updateMetadata st.db now n req with
      | .error e =>
          ⟨.error 500 "Failed to update project" (some e), st, evs0 ++ [Ev.rollback]⟩
      | .ok (respProj, db1) =>
        let ids := parsedDeleteIds req.deleted_images
        let r1 := deleteImagesPhase db1 st.blobs evs0 ids n
        let r2 := updateImagesLoop n.toNat r1.1 r1.2.1 r1.2.2
          (maxOrderOf r1.1 n + 1) req.files
        match respProj with
        | some rp =>
            ⟨.success (some "Project updated successfully") rp
               (selectImages r2.1 n.toNat),
             ⟨r2.1, r2.2.1⟩, r2.2.2 ++ [Ev.commit]⟩
        | none =>
            -- unreachable: the existence check above guarantees a
            -- matching row survives the metadata phase
            ⟨.error 500 "Failed to update project" none,
             ⟨r2.1, r2.2.1⟩, r2.2.2 ++ [Ev.commit]⟩

/-! ### DELETE /delete/:id -/

/-- `DELETE /delete/:id` (no auth middleware on the route): fetch the
project's image URLs, best-effort delete each blob, then delete the project
row — 404 with ROLLBACK when no row was deleted, else COMMIT.

Modelled from the spec: the `gallery_images` DDL is not under `src/`; per
the spec image rows cascade on project deletion, so a successful project
delete also removes every image row of that project. -/
def deleteProject (st : SysState) (idParam : String) : HandlerOut :=
  let evs0 := [Ev.beginTx]
  match pgParseInt idParam with
  | none =>
      ⟨.error 500 "Failed to delete project"
         (some "invalid input syntax for type integer"), st, evs0 ++ [Ev.rollback]⟩
  | some n =>
    let victims := st.db.images.filter (fun img => (img.project_id : Int) == n)
    let urls := victims.map (fun img => img.image_url)
    let blobs1 := st.blobs.filter (fun u => !urls.contains u)
    let evs1 := evs0 ++ urls.map Ev.blobDelete
    if (st.db.projects.filter (fun p => (p.id : Int) == n)).isEmpty then
      ⟨.error 404 "Project not found" none, ⟨st.db, blobs1⟩, evs1 ++ [Ev.rollback]⟩
    else
      ⟨.plain "Project deleted successfully",
       ⟨{ st.db with
            projects := st.db.projects.filter (fun p => !((p.id : Int) == n)),
            images := st.db.images.filter (fun img => !((img.project_id : Int) == n)) },
          blobs1⟩,
       evs1 ++ [Ev.commit]⟩

/-! ### Concrete fixtures -/

/-- Fresh empty system state. -/
def emptyState : SysState := ⟨⟨[], [], 1, 1⟩, []⟩

/-- A create request with every body field absent and no files. -/
def blankCreateReq : CreateReq :=
  { authHeader := none, title := none, subtitle := none, description := none,
    vehicle_type := none, service_type := none, duration := none,
    completed_date := none, display_order := none, files := [] }

/-- An update request with every body field absent and no files. -/
def blankUpdateReq (idp : String) : UpdateReq :=
  { authHeader := none, idParam := idp, title := none, subtitle := none,
    description := none, vehicle_type := none, service_type := none,
    duration := none, completed_date := none, display_order := none,
    deleted_images := none, files := [] }

/-! ### C1 — auth gate on POST /gallery/create -/

/-- The failing input for C1: no `Authorization` header, `title = "Test"`,
no files. -/
def c1Req : CreateReq := { blankCreateReq with title := some "Test" }

/-- Claim C1 (code bug): the spec promises that POST /gallery/create
without a valid bearer token answers 401 with zero database writes, but the
route (unlike every other admin write route of the repository) carries no
`authenticateToken` middleware: the unauthenticated request is processed,
answers 200, inserts a project row — and the outcome does not depend on the
`Authorization` header at all. -/
theorem c1_create_unauthenticated_processed :
    (createProject emptyState 0 c1Req).resp.statusCode = 200 ∧
    (createProject emptyState 0 c1Req).resp.statusCode ≠ 401 ∧
    (createProject emptyState 0 c1Req).state.db.projects.length = 1 ∧
    ∀ h, createProject emptyState 0 { c1Req with authHeader := h } =
      createProject emptyState 0 c1Req :=
  ⟨by decide, by decide, by decide, fun _ => rfl⟩

/-! ### C3 — update of a missing project -/

/-- Claim C3, amended: when the target id parses but matches no project
row, the update handler throws a generic `Error` that the catch-all turns
into an HTTP **500** envelope (`message` "Failed to update project",
`error` "Project N not found"); the transaction is rolled back and the
whole state is left unchanged. -/
theorem update_missing_project_500_unchanged (st : SysState) (now : Int)
    (req : UpdateReq) (n : Int)
    (hp : parseIntJS req.idParam = some n)
    (hmiss : (st.db.projects.filter (fun p => (p.id : Int) == n)).isEmpty = true) :
    updateProject st now req =
      ⟨.error 500 "Failed to update project"
         (some ("Project " ++ toString n ++ " not found")),
       st, [Ev.beginTx, Ev.rollback]⟩ := by
  simp [updateProject, hp, hmiss]

/-- Witness for C3's amended theorem at a concrete input. -/
theorem update_missing_project_500_unchanged_witness :
    updateProject emptyState 0 (blankUpdateReq "42") =
      ⟨.error 500 "Failed to update project" (some "Project 42 not found"),
       emptyState, [Ev.beginTx, Ev.rollback]⟩ :=
  update_missing_project_500_unchanged emptyState 0 (blankUpdateReq "42") 42
    (by decide) (by decide)

/-- Counterexample to C3 as stated: the update of a missing project is
surfaced as HTTP 500, not 404. -/
theorem c3_update_missing_project_not_404 :
    (updateProject emptyState 0 (blankUpdateReq "42")).resp.statusCode = 500 ∧
    (updateProject emptyState 0 (blankUpdateReq "42")).resp.statusCode ≠ 404 := by
  decide

/-! ### C4 — unauthorized outcomes of the auth middleware -/

/-- Claim C4, amended: on a protected route a missing (or JS-falsy) bearer
token yields HTTP **401** while a present but invalid/expired token yields
HTTP **403** — both are denials with the error envelope, but they are not
the same client-facing status. -/
theorem auth_missing_401_invalid_403 (verify : String → Option DecodedUser)
    (h : Option String) :
    ((bearerToken h = none ∨ bearerToken h = some "") →
       authenticateToken verify h = .denied 401 "Access denied. No token provided.") ∧
    (∀ t, bearerToken h = some t → t ≠ "" → verify t = none →
       authenticateToken verify h = .denied 403 "Invalid or expired token.") := by
  constructor
  · rintro (hb | hb) <;> simp [authenticateToken, hb]
  · intro t hb ht hv
    simp [authenticateToken, hb, ht, hv]

/-- Witness for C4's amended theorem at concrete inputs. -/
theorem auth_missing_401_invalid_403_witness :
    authenticateToken (fun _ => none) none =
      .denied 401 "Access denied. No token provided." ∧
    authenticateToken (fun _ => none) (some "Bearer bad") =
      .denied 403 "Invalid or expired token." :=
  ⟨(auth_missing_401_invalid_403 (fun _ => none) none).1 (Or.inl rfl),
   (auth_missing_401_invalid_403 (fun _ => none) (some "Bearer bad")).2 "bad"
     (by decide) (by decide) rfl⟩

/-- Counterexample to C4 as stated: an invalid token is answered with 403,
which differs from the 401 of a missing header. -/
theorem c4_invalid_token_403_not_401 :
    (authenticateToken (fun _ => none) (some "Bearer bad")).statusOf = 403 ∧
    (authenticateToken (fun _ => none) none).statusOf = 401 ∧
    (403 : Nat) ≠ 401 := by
  decide

/-! ### C8 — create without a title -/

/-- Claim C8, amended: the create handler performs no field validation;
`BEGIN` runs first, the project insert then fails the NOT NULL constraint
on `title` inside the open transaction, and the handler rolls back and
answers a **500** storage-error envelope.  No relational or blob side
effects survive (the failure precedes the upload loop), but the rejection
is not a 400 validation error and does not happen before the transaction
opens. -/
theorem create_missing_title_rolls_back (st : SysState) (now : Int)
    (req : CreateReq) (h : req.title = none) :
    createProject st now req =
      ⟨.error 500 "Failed to create project"
         (some "null value in column title violates not-null constraint"),
       st, [Ev.beginTx, Ev.rollback]⟩ := by
  simp [createProject, insertGalleryProject, h]

/-- Witness for C8's amended theorem at a concrete input. -/
theorem create_missing_title_rolls_back_witness :
    createProject emptyState 0 { blankCreateReq with files := [⟨"a.png", some "u"⟩] } =
      ⟨.error 500 "Failed to create project"
         (some "null value in column title violates not-null constraint"),
       emptyState, [Ev.beginTx, Ev.rollback]⟩ :=
  create_missing_title_rolls_back emptyState 0
    { blankCreateReq with files := [⟨"a.png", some "u"⟩] } rfl

/-- Counterexample to C8 as stated: the missing-title request is not
rejected before a transaction opens — the event trace starts with `BEGIN`,
and the response is a 500, not a 400 validation error. -/
theorem c8_create_missing_title_opens_transaction :
    (createProject emptyState 0 { blankCreateReq with files := [⟨"a.png", some "u"⟩] }).events
      = [Ev.beginTx, Ev.rollback] ∧
    (createProject emptyState 0 { blankCreateReq with files := [⟨"a.png", some "u"⟩] }).resp.statusCode = 500 ∧
    (500 : Nat) ≠ 400 := by
  decide

/-! ### C2 — create atomicity under a failing upload -/

/-- If some file's upload throws, the create image loop propagates the
error. -/
theorem createImagesLoop_error (pid : Nat) (files : List UploadFile)
    (h : ∃ f ∈ files, f.uploadResult = none) (i : Nat) (db : DB)
    (blobs : List String) (evs : List Ev) :
    ∃ b e, createImagesLoop pid i db blobs evs files = .error (b, e) := by
  induction files generalizing i db blobs evs with
  | nil =>
    obtain ⟨f, hf, _⟩ := h
    cases hf
  | cons f rest ih =>
    obtain ⟨g, hg, hgr⟩ := h
    cases hfr : f.uploadResult with
    | none => exact ⟨blobs, evs, by simp [createImagesLoop, hfr]⟩
    | some url =>
      have hgrest : ∃ f ∈ rest, f.uploadResult = none := by
        rcases List.mem_cons.mp hg with hh | hh
        · exact absurd hgr (by rw [hh]; simp [hfr])
        · exact ⟨g, hh, hgr⟩
      simp only [createImagesLoop, hfr]
      by_cases hu : url = ""
      · rw [if_pos hu]; exact ih hgrest _ _ _ _
      · rw [if_neg hu]; exact ih hgrest _ _ _ _

/-- Claim C2 (confirmed): if any attached file's blob upload fails during
create, the whole transaction rolls back — the response is a 500 and the
relational state afterwards equals the state before the request, so no
project row and no image row of that request exist (already-uploaded blobs
may remain; they are outside the transaction). -/
theorem create_upload_failure_rolls_back (st : SysState) (now : Int)
    (req : CreateReq) (h : ∃ f ∈ req.files, f.uploadResult = none) :
    (createProject st now req).resp.statusCode = 500 ∧
    (createProject st now req).state.db = st.db := by
  unfold createProject
  cases hins : insertGalleryProject st.db now req with
  | error e => simp [GalleryResponse.statusCode]
  | ok pdb =>
    obtain ⟨b, e, hloop⟩ :=
      createImagesLoop_error pdb.1.id req.files h 0 pdb.2 st.blobs [Ev.beginTx]
    simp [hloop, GalleryResponse.statusCode]

/-- The fixture for C2's witness: a titled create whose second file's
upload throws. -/
def c2Req : CreateReq :=
  { blankCreateReq with
    title := some "T"
    files := [⟨"a.png", some "https://blob/a"⟩, ⟨"b.png", none⟩] }

/-- Witness for C2's theorem at a concrete input. -/
theorem create_upload_failure_rolls_back_witness :
    (createProject emptyState 0 c2Req).resp.statusCode = 500 ∧
    (createProject emptyState 0 c2Req).state.db = emptyState.db :=
  create_upload_failure_rolls_back emptyState 0 c2Req
    ⟨⟨"b.png", none⟩, by decide, rfl⟩

/-! ### C5 — primary uniqueness at creation -/

/-- The image rows the create loop inserts when every upload succeeds with
a truthy URL: orders follow the file index from `i`, row ids the sequence
from `nid`, and only index 0 is primary. -/
def okRows (pid i nid : Nat) : List String → List ImageRow
  | [] => []
  | u :: us =>
    { id := nid, project_id := pid, image_url := u,
      image_order := Int.ofNat i, is_primary := i == 0 } ::
      okRows pid (i + 1) (nid + 1) us

/-- The create image loop when every upload succeeds with a non-empty
URL. -/
theorem createImagesLoop_ok (pid : Nat) (files : List UploadFile)
    (urls : List String)
    (hmap : files.map (fun f => f.uploadResult) = urls.map some)
    (hne : ∀ u ∈ urls, u ≠ "") (i : Nat) (db : DB) (blobs : List String)
    (evs : List Ev) :
    createImagesLoop pid i db blobs evs files =
      .ok ({ db with images := db.images ++ okRows pid i db.nextImageId urls,
                     nextImageId := db.nextImageId + urls.length },
           blobs ++ urls, evs ++ urls.map Ev.blobUpload) := by
  induction files generalizing urls i db blobs evs with
  | nil =>
    cases urls with
    | nil => simp [createImagesLoop, okRows]
    | cons u us => simp at hmap
  | cons f rest ih =>
    cases urls with
    | nil => simp at hmap
    | cons u us =>
      simp only [List.map_cons, List.cons.injEq] at hmap
      obtain ⟨hf, hrest⟩ := hmap
      have hu : u ≠ "" := hne u (by simp)
      simp only [createImagesLoop, hf]
      rw [if_neg hu]
      rw [ih us hrest (fun v hv => hne v (by simp [hv]))]
      simp [insertImage, okRows, List.append_assoc, Nat.add_comm,
        Nat.add_left_comm]

/-- Every row the loop inserts belongs to the new project. -/
theorem okRows_filter_proj (pid : Nat) (urls : List String) (i nid : Nat) :
    (okRows pid i nid urls).filter (fun img => img.project_id == pid) =
      okRows pid i nid urls := by
  induction urls generalizing i nid with
  | nil => simp [okRows]
  | cons u us ih => simp [okRows, ih]

/-- Rows inserted for file indices past 0 are never primary. -/
theorem okRows_no_primary (pid : Nat) (urls : List String) (i nid : Nat)
    (hi : i ≠ 0) :
    (okRows pid i nid urls).filter (fun img => img.is_primary) = [] := by
  induction urls generalizing i nid with
  | nil => simp [okRows]
  | cons u us ih =>
    have : (i == 0) = false := by simpa using hi
    simp [okRows, this, ih (i + 1) (nid + 1) (by omega)]

/-- Claim C5 (confirmed): for a successful create with at least one
attached image (every upload succeeding with a non-empty URL, title
present, display order valid, project id fresh), exactly one image of the
returned array has `is_primary = true` — the filter on the primary flag is
a singleton — and that image carries the URL of the file at array index 0
and `image_order = 0`. -/
theorem create_primary_unique_first (st : SysState) (now : Int)
    (req : CreateReq) (t : String) (d : Int) (f0 : UploadFile)
    (fs : List UploadFile) (urls : List String)
    (hfiles : req.files = f0 :: fs)
    (hmap : req.files.map (fun f => f.uploadResult) = urls.map some)
    (hne : ∀ u ∈ urls, u ≠ "")
    (htitle : req.title = some t)
    (hdisp : displayOrderValue req.display_order = some d)
    (hfresh : ∀ img ∈ st.db.images, img.project_id ≠ st.db.nextProjectId) :
    (createProject st now req).resp.statusCode = 200 ∧
    ∃ u0, f0.uploadResult = some u0 ∧
      ((createProject st now req).resp.imagesOf.filter (fun r => r.is_primary)) =
        [{ id := st.db.nextImageId, project_id := st.db.nextProjectId,
           image_url := u0, image_order := 0, is_primary := true }] := by
  cases urls with
  | nil => rw [hfiles] at hmap; simp at hmap
  | cons u0 us =>
    rw [hfiles] at hmap
    simp only [List.map_cons, List.cons.injEq] at hmap
    obtain ⟨hf0, hrest⟩ := hmap
    have hmap0 : req.files.map (fun f => f.uploadResult) = (u0 :: us).map some := by
      rw [hfiles]; simp [hf0, hrest]
    simp only [createProject, insertGalleryProject, htitle, hdisp]
    rw [createImagesLoop_ok _ _ _ hmap0 hne]
    have hfilterOld :
        st.db.images.filter (fun img => img.project_id == st.db.nextProjectId) = [] := by
      apply List.filter_eq_nil_iff.mpr
      intro img hmem
      simpa using hfresh img hmem
    have hsingle :
        ((st.db.images ++ okRows st.db.nextProjectId 0 st.db.nextImageId (u0 :: us)).filter
            (fun img => img.project_id == st.db.nextProjectId)).filter
            (fun r => r.is_primary) =
          [{ id := st.db.nextImageId, project_id := st.db.nextProjectId,
             image_url := u0, image_order := 0, is_primary := true }] := by
      rw [List.filter_append, hfilterOld, okRows_filter_proj]
      simp [okRows, okRows_no_primary st.db.nextProjectId us 1 (st.db.nextImageId + 1)]
    refine ⟨rfl, u0, hf0, ?_⟩
    have hperm :
        ((selectImages
            { st.db with
              projects := st.db.projects ++
                [{ id := st.db.nextProjectId, title := some t,
                   subtitle := req.subtitle, description := req.description,
                   vehicle_type := req.vehicle_type,
                   service_type := req.service_type, duration := req.duration,
                   completed_date := req.completed_date, display_order := d,
                   is_active := true, created_at := now, updated_at := now }],
              nextProjectId := st.db.nextProjectId + 1,
              images := st.db.images ++
                okRows st.db.nextProjectId 0 st.db.nextImageId (u0 :: us),
              nextImageId := st.db.nextImageId + (u0 :: us).length }
            st.db.nextProjectId).filter (fun r => r.is_primary)).Perm
          [{ id := st.db.nextImageId, project_id := st.db.nextProjectId,
             image_url := u0, image_order := 0, is_primary := true }] := by
      rw [← hsingle]
      exact (List.perm_insertionSort imgLe _).filter _
    exact List.perm_singleton.mp hperm

/-- The fixture for C5's witness: a titled create with two files, both
uploads succeeding. -/
def c5Req : CreateReq :=
  { blankCreateReq with
    title := some "T"
    files := [⟨"a.png", some "https://blob/a"⟩, ⟨"b.png", some "https://blob/b"⟩] }

/-- Witness for C5's theorem at a concrete input. -/
theorem create_primary_unique_first_witness :
    (createProject emptyState 0 c5Req).resp.statusCode = 200 ∧
    ∃ u0, (⟨"a.png", some "https://blob/a"⟩ : UploadFile).uploadResult = some u0 ∧
      ((createProject emptyState 0 c5Req).resp.imagesOf.filter (fun r => r.is_primary)) =
        [{ id := emptyState.db.nextImageId, project_id := emptyState.db.nextProjectId,
           image_url := u0, image_order := 0, is_primary := true }] :=
  create_primary_unique_first emptyState 0 c5Req "T" 0
    ⟨"a.png", some "https://blob/a"⟩ [⟨"b.png", some "https://blob/b"⟩]
    ["https://blob/a", "https://blob/b"] rfl rfl (by decide) rfl rfl (by decide)

/-! ### C6 — new images appended by update -/

/-- The image rows the update loop inserts when every upload succeeds with
a truthy URL: consecutive orders from `ord`, ids from `nid`, never
primary. -/
def updRows (pid : Nat) (ord : Int) (nid : Nat) : List String → List ImageRow
  | [] => []
  | u :: us =>
    { id := nid, project_id := pid, image_url := u, image_order := ord,
      is_primary := false } :: updRows pid (ord + 1) (nid + 1) us

/-- The update image loop when every upload succeeds with a non-empty
URL. -/
theorem updateImagesLoop_ok (pid : Nat) (files : List UploadFile)
    (urls : List String)
    (hmap : files.map (fun f => f.uploadResult) = urls.map some)
    (hne : ∀ u ∈ urls, u ≠ "") (db : DB) (blobs : List String) (evs : List Ev)
    (ord : Int) :
    updateImagesLoop pid db blobs evs ord files =
      ({ db with images := db.images ++ updRows pid ord db.nextImageId urls,
                 nextImageId := db.nextImageId + urls.length },
       blobs ++ urls, evs ++ urls.map Ev.blobUpload) := by
  induction files generalizing urls db blobs evs ord with
  | nil =>
    cases urls with
    | nil => simp [updateImagesLoop, updRows]
    | cons u us => simp at hmap
  | cons f rest ih =>
    cases urls with
    | nil => simp at hmap
    | cons u us =>
      simp only [List.map_cons, List.cons.injEq] at hmap
      obtain ⟨hf, hrest⟩ := hmap
      have hu : u ≠ "" := hne u (by simp)
      simp only [updateImagesLoop, hf]
      rw [if_neg hu]
      rw [ih us hrest (fun v hv => hne v (by simp [hv]))]
      simp [insertImage, updRows, List.append_assoc, Nat.add_comm,
        Nat.add_left_comm]

/-- Metadata phase with no present field: a plain SELECT, table
untouched. -/
theorem updateMetadata_no_text (db : DB) (now : Int) (n : Int)
    (req : UpdateReq) (h : hasTextUpdates req = false) :
    updateMetadata db now n req =
      .ok ((db.projects.filter (fun p => (p.id : Int) == n)).head?, db) := by
  simp [updateMetadata, h]

/-- The project table after the dynamic UPDATE: every row whose id matches
the target gets the merged fields. -/
def mappedProjects (db : DB) (now : Int) (n : Int) (req : UpdateReq)
    (dord : DispOrder) : List ProjectRow :=
  db.projects.map (fun p => if (p.id : Int) == n then applyRow req now dord p else p)

/-- Metadata phase with at least one present field and a valid
`display_order`: the dynamic UPDATE applied to every matching row. -/
theorem updateMetadata_text (db : DB) (now : Int) (n : Int) (req : UpdateReq)
    (dord : DispOrder) (h : hasTextUpdates req = true)
    (hd : displayOrderUpdate req = .ok dord) :
    updateMetadata db now n req =
      .ok (((mappedProjects db now n req dord).filter
              (fun p => (p.id : Int) == n)).head?,
           { db with projects := mappedProjects db now n req dord }) := by
  simp [updateMetadata, mappedProjects, h, hd]

/-- A non-empty list has a `head?`. -/
theorem head_some_of_not_isEmpty {α : Type} (l : List α)
    (h : l.isEmpty = false) : ∃ x, l.head? = some x := by
  cases l with
  | nil => simp at h
  | cons a t => exact ⟨a, rfl⟩

/-- The per-row UPDATE keeps row identifiers, so filtering the updated
table on the id has the same emptiness as filtering the original. -/
theorem filter_map_update_isEmpty (l : List ProjectRow) (n : Int)
    (g : ProjectRow → ProjectRow) (hg : ∀ r, (g r).id = r.id) :
    ((l.map (fun p => if (p.id : Int) == n then g p else p)).filter
        (fun p => (p.id : Int) == n)).isEmpty =
      (l.filter (fun p => (p.id : Int) == n)).isEmpty := by
  induction l with
  | nil => rfl
  | cons q rest ih =>
    simp only [List.map_cons, List.filter_cons]
    by_cases hq : ((q.id : Int) == n) = true
    · rw [if_pos hq]
      have hgq : (((g q).id : Int) == n) = true := by rw [hg]; exact hq
      rw [if_pos hgq, if_pos hq]
      simp
    · rw [if_neg hq, if_neg hq, if_neg hq]
      exact ih

/-- Discarding an empty deletion list leaves everything unchanged. -/
theorem deleteImagesPhase_nil (db : DB) (blobs : List String) (evs : List Ev)
    (n : Int) : deleteImagesPhase db blobs evs [] n = (db, blobs, evs) := by
  simp [deleteImagesPhase]

/-- Claim C6 (confirmed): an update whose attached files all upload
successfully appends, after the deletion phase (empty here), image rows
with consecutive `image_order` values starting at
`max(existing image_order) + 1` (`-1 + 1 = 0` for a project with no
images) and `is_primary = false` throughout, and answers 200. -/
theorem update_new_images_appended (st : SysState) (now : Int)
    (req : UpdateReq) (n : Int) (urls : List String)
    (hp : parseIntJS req.idParam = some n)
    (hnonempty : (st.db.projects.filter (fun p => (p.id : Int) == n)).isEmpty = false)
    (hdel : parsedDeleteIds req.deleted_images = [])
    (hmap : req.files.map (fun f => f.uploadResult) = urls.map some)
    (hne : ∀ u ∈ urls, u ≠ "")
    (hdisp : ∃ dord, displayOrderUpdate req = .ok dord) :
    (updateProject st now req).resp.statusCode = 200 ∧
    (updateProject st now req).state.db.images =
      st.db.images ++
        updRows n.toNat (maxOrderOf st.db n + 1) st.db.nextImageId urls := by
  obtain ⟨dord, hd⟩ := hdisp
  simp only [updateProject, hp, hnonempty]
  by_cases ht : hasTextUpdates req
  · rw [updateMetadata_text st.db now n req dord ht hd]
    have hne2 : ((mappedProjects st.db now n req dord).filter
        (fun p => (p.id : Int) == n)).isEmpty = false := by
      rw [mappedProjects,
        filter_map_update_isEmpty st.db.projects n (applyRow req now dord)
          (fun r => rfl)]
      exact hnonempty
    obtain ⟨rp, hrp⟩ := head_some_of_not_isEmpty _ hne2
    rw [hrp, hdel]
    simp only [deleteImagesPhase_nil, updateImagesLoop_ok _ _ _ hmap hne]
    exact ⟨rfl, rfl⟩
  · rw [updateMetadata_no_text st.db now n req (by simpa using ht)]
    obtain ⟨rp, hrp⟩ := head_some_of_not_isEmpty _ hnonempty
    rw [hrp, hdel]
    simp only [deleteImagesPhase_nil, updateImagesLoop_ok _ _ _ hmap hne]
    exact ⟨rfl, rfl⟩

/-- The fixture for C6's witness: one project (id 1) with no images. -/
def c6State : SysState :=
  ⟨⟨[{ id := 1, title := some "P", subtitle := none, description := none,
       vehicle_type := none, service_type := none, duration := none,
       completed_date := none, display_order := 0, is_active := true,
       created_at := 0, updated_at := 0 }],
    [], 2, 1⟩, []⟩

/-- The fixture for C6's witness: `deleted_images = []` and one new
file. -/
def c6Req : UpdateReq :=
  { blankUpdateReq "1" with
    deleted_images := some []
    files := [⟨"new.png", some "https://blob/new"⟩] }

/-- Witness for C6's theorem at a concrete input: the single appended
image gets `image_order = 0` and `is_primary = false`. -/
theorem update_new_images_appended_witness :
    (updateProject c6State 0 c6Req).resp.statusCode = 200 ∧
    (updateProject c6State 0 c6Req).state.db.images =
      c6State.db.images ++
        updRows (Int.toNat 1) (maxOrderOf c6State.db 1 + 1)
          c6State.db.nextImageId ["https://blob/new"] :=
  update_new_images_appended c6State 0 c6Req 1 ["https://blob/new"]
    (by decide) (by decide) rfl rfl (by decide) ⟨DispOrder.keep, rfl⟩

/-! ### C7 — sparse field merge on update -/

/-- An absent or empty body field never overwrites the stored value. -/
theorem mergeField_absent (v old : Option String)
    (h : fieldPresent v = false) : mergeField v old = old := by
  cases v with
  | none => rfl
  | some s =>
    simp only [fieldPresent, Bool.not_eq_false'] at h
    simp only [mergeField]
    rw [if_pos (by simpa using h)]

/-- When no field is present the dynamic `SET` list is empty, field by
field. -/
theorem fields_absent_of_no_text (req : UpdateReq)
    (h : hasTextUpdates req = false) :
    fieldPresent req.title = false ∧ fieldPresent req.subtitle = false ∧
    fieldPresent req.description = false ∧
    fieldPresent req.vehicle_type = false ∧
    fieldPresent req.service_type = false ∧
    fieldPresent req.duration = false ∧
    fieldPresent req.completed_date = false ∧
    fieldPresent req.display_order = false := by
  simp only [hasTextUpdates, Bool.or_eq_false_iff] at h
  obtain ⟨⟨⟨⟨⟨⟨⟨h1, h2⟩, h3⟩, h4⟩, h5⟩, h6⟩, h7⟩, h8⟩ := h
  exact ⟨h1, h2, h3, h4, h5, h6, h7, h8⟩

/-- An absent or empty `display_order` keeps the stored value. -/
theorem dispOrd_absent (req : UpdateReq)
    (h : fieldPresent req.display_order = false) :
    displayOrderUpdate req = .ok .keep := by
  cases hv : req.display_order with
  | none => simp [displayOrderUpdate, hv]
  | some s =>
    rw [hv] at h
    simp only [fieldPresent, Bool.not_eq_false'] at h
    simp only [displayOrderUpdate, hv]
    rw [if_pos (by simpa using h)]

/-- In a table whose ids are distinct, `find?` on a member's id returns
that member. -/
theorem find_member_by_id (l : List ProjectRow) (p : ProjectRow) (n : Int)
    (hmem : p ∈ l) (hid : (p.id : Int) = n)
    (hnd : (l.map (fun r => r.id)).Nodup) :
    l.find? (fun r => (r.id : Int) == n) = some p := by
  induction l with
  | nil => cases hmem
  | cons q rest ih =>
    rw [List.map_cons, List.nodup_cons] at hnd
    rcases List.mem_cons.mp hmem with hpq | hrest
    · subst hpq
      have : ((p.id : Int) == n) = true := by simpa using hid
      simp [List.find?_cons_of_pos, this]
    · have hqid : ¬((q.id : Int) = n) := by
        intro hqn
        apply hnd.1
        have hq : q.id = p.id := by exact_mod_cast hqn.trans hid.symm
        rw [hq]
        exact List.mem_map_of_mem _ hrest
      have hstep : List.find? (fun r => (r.id : Int) == n) (q :: rest) =
          List.find? (fun r => (r.id : Int) == n) rest :=
        List.find?_cons_of_neg rest (by simpa using hqid)
      rw [hstep]
      exact ih hrest hnd.2

/-- `find?` on the id over the updated table returns the updated row of a
member, when ids are distinct. -/
theorem find_member_by_id_mapped (l : List ProjectRow) (p : ProjectRow)
    (n : Int) (g : ProjectRow → ProjectRow) (hg : ∀ r, (g r).id = r.id)
    (hmem : p ∈ l) (hid : (p.id : Int) = n)
    (hnd : (l.map (fun r => r.id)).Nodup) :
    (l.map (fun r => if (r.id : Int) == n then g r else r)).find?
      (fun r => (r.id : Int) == n) = some (g p) := by
  induction l with
  | nil => cases hmem
  | cons q rest ih =>
    rw [List.map_cons, List.nodup_cons] at hnd
    rw [List.map_cons]
    rcases List.mem_cons.mp hmem with hpq | hrest
    · subst hpq
      have hq : ((p.id : Int) == n) = true := by simpa using hid
      rw [if_pos hq]
      exact List.find?_cons_of_pos _ (by simpa [hg] using hid)
    · have hqid : ¬((q.id : Int) = n) := by
        intro hqn
        apply hnd.1
        have hq2 : q.id = p.id := by exact_mod_cast hqn.trans hid.symm
        rw [hq2]
        exact List.mem_map_of_mem _ hrest
      rw [if_neg (by simpa using hqid)]
      have hstep : List.find? (fun r => (r.id : Int) == n)
          (q :: rest.map (fun r => if (r.id : Int) == n then g r else r)) =
          List.find? (fun r => (r.id : Int) == n)
            (rest.map (fun r => if (r.id : Int) == n then g r else r)) :=
        List.find?_cons_of_neg _ (by simpa using hqid)
      rw [hstep]
      exact ih hrest hnd.2

/-- The image-deletion phase never touches the project table. -/
theorem deleteImagesPhase_fst_projects (db : DB) (blobs : List String)
    (evs : List Ev) (ids : List Int) (n : Int) :
    (deleteImagesPhase db blobs evs ids n).1.projects = db.projects := by
  simp only [deleteImagesPhase]
  split
  · rfl
  · split
    · rfl
    · rfl

/-- The new-image loop never touches the project table. -/
theorem updateImagesLoop_fst_projects (pid : Nat) (files : List UploadFile) :
    ∀ db blobs evs ord,
      (updateImagesLoop pid db blobs evs ord files).1.projects = db.projects := by
  induction files with
  | nil => intro db blobs evs ord; rfl
  | cons f rest ih =>
    intro db blobs evs ord
    cases hf : f.uploadResult with
    | none =>
      simp only [updateImagesLoop, hf]
      exact ih _ _ _ _
    | some url =>
      simp only [updateImagesLoop, hf]
      by_cases hu : url = ""
      · rw [if_pos hu]; exact ih _ _ _ _
      · rw [if_neg hu]; rw [ih _ _ _ _]; rfl

/-- Claim C7 (confirmed): for every update request that commits (valid id,
matching project, ids distinct, `display_order` well-formed), the stored
project row afterwards has each of the seven text fields overwritten
exactly when present and non-empty in the request — `mergeField` — and
`display_order` overwritten exactly when present, non-empty and parsed;
every absent or empty field keeps its prior stored value. -/
theorem update_sparse_field_merge (st : SysState) (now : Int)
    (req : UpdateReq) (n : Int) (p : ProjectRow) (dord : DispOrder)
    (hp : parseIntJS req.idParam = some n)
    (hmem : p ∈ st.db.projects)
    (hid : (p.id : Int) = n)
    (hnd : (st.db.projects.map (fun r => r.id)).Nodup)
    (hdisp : displayOrderUpdate req = .ok dord) :
    (updateProject st now req).resp.statusCode = 200 ∧
    ∃ q, ((updateProject st now req).state.db.projects.find?
        (fun r => (r.id : Int) == n)) = some q ∧
      q.title = mergeField req.title p.title ∧
      q.subtitle = mergeField req.subtitle p.subtitle ∧
      q.description = mergeField req.description p.description ∧
      q.vehicle_type = mergeField req.vehicle_type p.vehicle_type ∧
      q.service_type = mergeField req.service_type p.service_type ∧
      q.duration = mergeField req.duration p.duration ∧
      q.completed_date = mergeField req.completed_date p.completed_date ∧
      q.display_order = dord.applyTo p.display_order := by
  have hnonempty :
      (st.db.projects.filter (fun r => (r.id : Int) == n)).isEmpty = false := by
    have hmf : p ∈ st.db.projects.filter (fun r => (r.id : Int) == n) :=
      List.mem_filter.mpr ⟨hmem, by simpa using hid⟩
    cases hfl : st.db.projects.filter (fun r => (r.id : Int) == n) with
    | nil => rw [hfl] at hmf; cases hmf
    | cons a t => rfl
  simp only [updateProject, hp]
  rw [if_neg (by simp [hnonempty])]
  by_cases ht : hasTextUpdates req = true
  · rw [updateMetadata_text st.db now n req dord ht hdisp]
    have hne2 : ((mappedProjects st.db now n req dord).filter
        (fun r => (r.id : Int) == n)).isEmpty = false := by
      rw [mappedProjects,
        filter_map_update_isEmpty st.db.projects n (applyRow req now dord)
          (fun r => rfl)]
      exact hnonempty
    obtain ⟨rp, hrp⟩ := head_some_of_not_isEmpty _ hne2
    rw [hrp]
    refine ⟨rfl, applyRow req now dord p, ?_, rfl, rfl, rfl, rfl, rfl, rfl,
      rfl, rfl⟩
    simp only [updateImagesLoop_fst_projects, deleteImagesPhase_fst_projects]
    rw [mappedProjects]
    exact find_member_by_id_mapped st.db.projects p n (applyRow req now dord)
      (fun r => rfl) hmem hid hnd
  · have htf : hasTextUpdates req = false := by simpa using ht
    rw [updateMetadata_no_text st.db now n req htf]
    obtain ⟨rp, hrp⟩ := head_some_of_not_isEmpty _ hnonempty
    rw [hrp]
    obtain ⟨h1, h2, h3, h4, h5, h6, h7, h8⟩ := fields_absent_of_no_text req htf
    have hdk : dord = DispOrder.keep := by
      have h0 := dispOrd_absent req h8
      rw [hdisp] at h0
      simpa using h0
    subst hdk
    refine ⟨rfl, p, ?_, (mergeField_absent _ _ h1).symm,
      (mergeField_absent _ _ h2).symm, (mergeField_absent _ _ h3).symm,
      (mergeField_absent _ _ h4).symm, (mergeField_absent _ _ h5).symm,
      (mergeField_absent _ _ h6).symm, (mergeField_absent _ _ h7).symm, rfl⟩
    simp only [updateImagesLoop_fst_projects, deleteImagesPhase_fst_projects]
    exact find_member_by_id st.db.projects p n hmem hid hnd

/-- The fixture for C7's witness: one project (id 3) with stored values in
every field. -/
def c7State : SysState :=
  ⟨⟨[{ id := 3, title := some "Old", subtitle := some "OldSub",
       description := some "OldDesc", vehicle_type := some "car",
       service_type := none, duration := some "2d",
       completed_date := some "2024-01-01", display_order := 1,
       is_active := true, created_at := 0, updated_at := 0 }],
    [], 4, 1⟩, []⟩

/-- The fixture for C7's witness: `title` present, `subtitle` present but
empty, `display_order = "7"`, everything else absent. -/
def c7Req : UpdateReq :=
  { blankUpdateReq "3" with
    title := some "New"
    subtitle := some ""
    display_order := some "7" }

/-- Witness for C7's theorem at a concrete input. -/
theorem update_sparse_field_merge_witness :
    (updateProject c7State 0 c7Req).resp.statusCode = 200 ∧
    ∃ q, ((updateProject c7State 0 c7Req).state.db.projects.find?
        (fun r => (r.id : Int) == 3)) = some q ∧
      q.title = mergeField c7Req.title (some "Old") ∧
      q.subtitle = mergeField c7Req.subtitle (some "OldSub") ∧
      q.description = mergeField c7Req.description (some "OldDesc") ∧
      q.vehicle_type = mergeField c7Req.vehicle_type (some "car") ∧
      q.service_type = mergeField c7Req.service_type none ∧
      q.duration = mergeField c7Req.duration (some "2d") ∧
      q.completed_date = mergeField c7Req.completed_date (some "2024-01-01") ∧
      q.display_order = (DispOrder.set 7).applyTo 1 :=
  update_sparse_field_merge c7State 0 c7Req 3
    { id := 3, title := some "Old", subtitle := some "OldSub",
      description := some "OldDesc", vehicle_type := some "car",
      service_type := none, duration := some "2d",
      completed_date := some "2024-01-01", display_order := 1,
      is_active := true, created_at := 0, updated_at := 0 }
    (DispOrder.set 7) (by decide) (by decide) (by decide) (by decide) rfl

/-! ### C9 — cascade delete -/

/-- Claim C9 (confirmed; the `ON DELETE CASCADE` constraint is modelled
from the spec since the DDL is not under `src/`): whenever
DELETE /gallery/delete/:id succeeds, a subsequent GET /gallery/:id on the
same identifier answers 404, and no `gallery_images` row referencing that
identifier remains. -/
theorem delete_succeeds_then_get_404 (st : SysState) (idParam : String)
    (h : (deleteProject st idParam).resp.statusCode = 200) :
    ∃ n, pgParseInt idParam = some n ∧
      (getProjectById (deleteProject st idParam).state.db idParam).statusCode = 404 ∧
      (deleteProject st idParam).state.db.images.filter
        (fun img => (img.project_id : Int) == n) = [] := by
  cases hp : pgParseInt idParam with
  | none => simp [deleteProject, hp, GalleryResponse.statusCode] at h
  | some n =>
    by_cases hemp :
        (st.db.projects.filter (fun p => (p.id : Int) == n)).isEmpty = true
    · simp [deleteProject, hp, hemp, GalleryResponse.statusCode] at h
    · refine ⟨n, rfl, ?_, ?_⟩
      · have hfind : (st.db.projects.filter (fun p => !((p.id : Int) == n))).find?
            (fun p => (p.id : Int) == n) = none := by
          rw [List.find?_eq_none]
          intro x hx
          have := (List.mem_filter.mp hx).2
          simpa using this
        simp [deleteProject, hp, hemp, getProjectById, hfind,
          GalleryResponse.statusCode]
      · simp only [deleteProject, hp]
        rw [if_neg hemp]
        simp

/-- The fixture for C9's witness: one project (id 7) with two images. -/
def c9State : SysState :=
  ⟨⟨[{ id := 7, title := some "P", subtitle := none, description := none,
       vehicle_type := none, service_type := none, duration := none,
       completed_date := none, display_order := 0, is_active := true,
       created_at := 0, updated_at := 0 }],
    [{ id := 1, project_id := 7, image_url := "https://blob/x",
       image_order := 0, is_primary := true },
     { id := 2, project_id := 7, image_url := "https://blob/y",
       image_order := 1, is_primary := false }],
    8, 3⟩,
   ["https://blob/x", "https://blob/y"]⟩

/-- Witness for C9's theorem at a concrete input. -/
theorem delete_succeeds_then_get_404_witness :
    ∃ n, pgParseInt "7" = some n ∧
      (getProjectById (deleteProject c9State "7").state.db "7").statusCode = 404 ∧
      (deleteProject c9State "7").state.db.images.filter
        (fun img => (img.project_id : Int) == n) = [] :=
  delete_succeeds_then_get_404 c9State "7" (by decide)

/-! ### C10 — listing hides inactive projects, fetch by id does not -/

/-- Claim C10 (confirmed): GET /gallery filters on `is_active = true`, so
an inactive project is absent from the list response, while GET /gallery/:id
applies no such filter and answers 200 with that very project. -/
theorem inactive_hidden_from_list_but_fetchable (db : DB) (p : ProjectRow)
    (idParam : String) (hmem : p ∈ db.projects) (hinact : p.is_active = false)
    (hnd : (db.projects.map (fun r => r.id)).Nodup)
    (hp : pgParseInt idParam = some (p.id : Int)) :
    p ∉ (getAllGallery db).map Prod.fst ∧
    getProjectById db idParam = .success none p (selectImages db p.id) ∧
    (getProjectById db idParam).statusCode = 200 := by
  have hfind := find_member_by_id db.projects p (p.id : Int) hmem rfl hnd
  refine ⟨?_, ?_, ?_⟩
  · intro hmemList
    simp only [getAllGallery, List.map_map] at hmemList
    have : p ∈ List.insertionSort projLe (db.projects.filter (fun q => q.is_active)) := by
      simpa using hmemList
    have : p ∈ db.projects.filter (fun q => q.is_active) :=
      (List.mem_insertionSort projLe).mp this
    have := (List.mem_filter.mp this).2
    rw [hinact] at this
    cases this
  · simp [getProjectById, hp, hfind]
  · simp [getProjectById, hp, hfind, GalleryResponse.statusCode]

/-- The fixture for C10's witness: an inactive project (id 5). -/
def c10DB : DB :=
  ⟨[{ id := 5, title := some "Hidden", subtitle := none, description := none,
      vehicle_type := none, service_type := none, duration := none,
      completed_date := none, display_order := 0, is_active := false,
      created_at := 0, updated_at := 0 }],
   [], 6, 1⟩

/-- Witness for C10's theorem at a concrete input. -/
theorem inactive_hidden_from_list_but_fetchable_witness :
    ({ id := 5, title := some "Hidden", subtitle := none, description := none,
       vehicle_type := none, service_type := none, duration := none,
       completed_date := none, display_order := 0, is_active := false,
       created_at := 0, updated_at := 0 } : ProjectRow)
        ∉ (getAllGallery c10DB).map Prod.fst ∧
    (getProjectById c10DB "5").statusCode = 200 := by
  have h := inactive_hidden_from_list_but_fetchable c10DB
    { id := 5, title := some "Hidden", subtitle := none, description := none,
      vehicle_type := none, service_type := none, duration := none,
      completed_date := none, display_order := 0, is_active := false,
      created_at := 0, updated_at := 0 } "5"
    (by decide) rfl (by decide) (by decide)
  exact ⟨h.1, h.2.2⟩

end WorksGlow
